import Mathlib

/-!
Shallow embedding of the slack-manager-go-client repository (package `client`):
the configuration options and their functional mutators (options.go), the
options validation pass (`Options.Validate`), the default retry policy
(default_retry_policy.go), and a model of the client lifecycle (Connect/Send)
taken from the specification, since the lifecycle source itself is only
exercised through its tests here.

Go `time.Duration` is an int64 count of nanoseconds; durations are embedded
as `Int` nanosecond counts (the programs only compare and store them, so no
overflow arithmetic occurs). Go `int` is embedded as `Int`. Go strings are
embedded as Lean `String`; `strings.TrimSpace` is embedded as `String.trim`
and `strings.EqualFold` as ASCII case folding, which agree with Go on the
ASCII data the program manipulates.
-/

namespace SlackClient

/-- One nanosecond, the unit of Go `time.Duration`. -/
def timeNanosecond : Int := 1

/-- Go `time.Millisecond` in nanoseconds. -/
def timeMillisecond : Int := 1000000

/-- Go `time.Second` in nanoseconds. -/
def timeSecond : Int := 1000000000

/-- Go `time.Minute` in nanoseconds. -/
def timeMinute : Int := 60000000000

/-- Embedding of Go `strings.Contains` on lists of characters: does `hay`
contain `pat` as a contiguous substring? -/
def listContainsSub (hay pat : List Char) : Bool :=
  if pat.isPrefixOf hay then true
  else
    match hay with
    | [] => false
    | _ :: t => listContainsSub t pat

/-- Embedding of Go `strings.Contains`. -/
def stringContains (s pat : String) : Bool :=
  listContainsSub s.toList pat.toList

/-- Embedding of Go `strings.EqualFold`, restricted to ASCII simple case
folding (the only case the program exercises: header names). -/
def eqFold (a b : String) : Bool :=
  a.toList.map Char.toLower == b.toList.map Char.toLower

/-- Embedding of Go `strings.TrimSpace`: strip leading and trailing
whitespace (restricted to the ASCII whitespace the program exercises). -/
def trimSpace (s : String) : String :=
  String.mk (((s.toList.dropWhile Char.isWhitespace).reverse.dropWhile
    Char.isWhitespace).reverse)

/-- Embedding of the `RequestLogger` interface (logger.go): three formatted
logging methods. Only nil-ness of a stored logger is observable to the
embedded code. -/
structure RequestLogger where
  errorf : String → List String → Unit
  warnf : String → List String → Unit
  debugf : String → List String → Unit

/-- Embedding of `NoopLogger` (logger.go): discards all log messages. -/
def NoopLogger : RequestLogger :=
  { errorf := fun _ _ => (), warnf := fun _ _ => (), debugf := fun _ _ => () }

/-- Embedding of `*resty.Response` as far as the program observes it: the
HTTP status code. -/
structure RestyResponse where
  statusCode : Int

/-- Embedding of a Go `error` value as far as `DefaultRetryPolicy` observes
it: whether `errors.Is(err, context.Canceled)` holds, whether
`errors.Is(err, context.DeadlineExceeded)` holds, and the text of
`err.Error()`. -/
structure GoError where
  isCanceled : Bool
  isDeadlineExceeded : Bool
  errMessage : String

/-- Embedding of `DefaultRetryPolicy` (default_retry_policy.go): on a
transport error, retry unless the error is cancellation, deadline
exceeded, or a DNS failure (detected by the substring "no such host");
on a received response, retry on status 429 or 5xx. -/
def DefaultRetryPolicy (r : RestyResponse) (err : Option GoError) : Bool :=
  match err with
  | some e =>
      !e.isCanceled && !e.isDeadlineExceeded &&
        !(stringContains e.errMessage "no such host")
  | none =>
      decide (r.statusCode = 429) || decide (500 ≤ r.statusCode)

/-- The type of a stored retry policy function. -/
def RetryPolicyFn : Type := RestyResponse → Option GoError → Bool

/-- Embedding of `*tls.Config` as an external value whose only observable
property to this program is nil-ness. -/
inductive TLSConfig where
  | mk

/-- Embedding of the constants block of options.go. -/
def maxRetryCount : Int := 100

/-- Minimum retry wait time (100ms). -/
def minRetryWaitTime : Int := 100 * timeMillisecond

/-- Maximum retry wait time (1 minute). -/
def maxRetryWaitTime : Int := 1 * timeMinute

/-- Minimum retry max-wait time (100ms). -/
def minRetryMaxWaitTime : Int := 100 * timeMillisecond

/-- Maximum retry max-wait time (5 minutes). -/
def maxRetryMaxWaitTime : Int := 5 * timeMinute

/-- Default request timeout (30s). -/
def defaultTimeout : Int := 30 * timeSecond

/-- Minimum request timeout (1s). -/
def minTimeout : Int := 1 * timeSecond

/-- Maximum request timeout (5 minutes). -/
def maxTimeout : Int := 5 * timeMinute

/-- Default User-Agent string. -/
def defaultUserAgent : String := "slack-manager-go-client/1.0"

/-- Default max idle connections. -/
def defaultMaxIdleConns : Int := 100

/-- Default max connections per host. -/
def defaultMaxConnsPerHost : Int := 10

/-- Maximum max-connections-per-host (100). -/
def maxMaxConnsPerHost : Int := 100

/-- Default idle connection timeout (90s). -/
def defaultIdleConnTimeout : Int := 90 * timeSecond

/-- Minimum idle connection timeout (1s). -/
def minIdleConnTimeout : Int := 1 * timeSecond

/-- Maximum idle connection timeout (5 minutes). -/
def maxIdleConnTimeout : Int := 5 * timeMinute

/-- Default max redirects. -/
def defaultMaxRedirects : Int := 10

/-- Maximum max-redirects (20). -/
def maxMaxRedirects : Int := 20

/-- Default auth scheme. -/
def defaultAuthScheme : String := "Bearer"

/-- Default alerts endpoint path. -/
def defaultAlertsEndpoint : String := "alerts"

/-- Default ping endpoint path. -/
def defaultPingEndpoint : String := "ping"

/-- Embedding of the `Options` struct (options.go, final revision): the full
configuration record of the client. Go maps are embedded as association
lists; nilable interface/function/pointer fields as `Option`. -/
structure Options where
  retryCount : Int
  retryWaitTime : Int
  retryMaxWaitTime : Int
  requestLogger : Option RequestLogger
  retryPolicy : Option RetryPolicyFn
  requestHeaders : List (String × String)
  basicAuthUsername : String
  basicAuthPassword : String
  authScheme : String
  authToken : String
  timeout : Int
  userAgent : String
  maxIdleConns : Int
  maxConnsPerHost : Int
  idleConnTimeout : Int
  disableKeepAlive : Bool
  maxRedirects : Int
  tlsConfig : Option TLSConfig
  alertsEndpoint : String
  pingEndpoint : String

/-- Embedding of `newClientOptions` (options.go): the default configuration. -/
def newClientOptions : Options :=
  { retryCount := 3
    retryWaitTime := 500 * timeMillisecond
    retryMaxWaitTime := 3 * timeSecond
    requestLogger := some NoopLogger
    retryPolicy := some DefaultRetryPolicy
    requestHeaders := [("Content-Type", "application/json"), ("Accept", "application/json")]
    basicAuthUsername := ""
    basicAuthPassword := ""
    authScheme := defaultAuthScheme
    authToken := ""
    timeout := defaultTimeout
    userAgent := defaultUserAgent
    maxIdleConns := defaultMaxIdleConns
    maxConnsPerHost := defaultMaxConnsPerHost
    idleConnTimeout := defaultIdleConnTimeout
    disableKeepAlive := false
    maxRedirects := defaultMaxRedirects
    tlsConfig := none
    alertsEndpoint := defaultAlertsEndpoint
    pingEndpoint := defaultPingEndpoint }

/-- Embedding of Go map assignment `m[k] = v` on the association-list model:
replace the value at an existing key, else append the binding. -/
def mapInsert : List (String × String) → String → String → List (String × String)
  | [], k, v => [(k, v)]
  | (k0, v0) :: rest, k, v =>
      if k0 = k then (k, v) :: rest else (k0, v0) :: mapInsert rest k v

/-- Embedding of Go map lookup `m[k]` on the association-list model. -/
def mapGet : List (String × String) → String → Option String
  | [], _ => none
  | (k0, v0) :: rest, k => if k0 = k then some v0 else mapGet rest k

/-- Embedding of `WithRetryCount` (options.go): negative values are ignored. -/
def WithRetryCount (count : Int) (o : Options) : Options :=
  if 0 ≤ count then { o with retryCount := count } else o

/-- Embedding of `WithRetryWaitTime` (options.go): values below 100ms are
ignored. Note the source checks only the lower bound. -/
def WithRetryWaitTime (waitTime : Int) (o : Options) : Options :=
  if 100 * timeMillisecond ≤ waitTime then { o with retryWaitTime := waitTime } else o

/-- Embedding of `WithRetryMaxWaitTime` (options.go): values below 100ms are
ignored. Note the source checks only the lower bound. -/
def WithRetryMaxWaitTime (maxWaitTime : Int) (o : Options) : Options :=
  if 100 * timeMillisecond ≤ maxWaitTime then { o with retryMaxWaitTime := maxWaitTime } else o

/-- Embedding of `WithRequestLogger` (options.go): nil loggers are ignored. -/
def WithRequestLogger (logger : Option RequestLogger) (o : Options) : Options :=
  if logger.isSome then { o with requestLogger := logger } else o

/-- Embedding of `WithRetryPolicy` (options.go): nil policies are ignored. -/
def WithRetryPolicy (policy : Option RetryPolicyFn) (o : Options) : Options :=
  if policy.isSome then { o with retryPolicy := policy } else o

/-- Embedding of `WithRequestHeader` (options.go, final revision): trims the
header name and value; silently ignores empty names and case-insensitive
matches of the protected Content-Type and Accept headers. -/
def WithRequestHeader (header value : String) (o : Options) : Options :=
  if trimSpace header = "" ∨ eqFold (trimSpace header) "Content-Type" = true ∨
      eqFold (trimSpace header) "Accept" = true then o
  else { o with requestHeaders := mapInsert o.requestHeaders (trimSpace header) (trimSpace value) }

/-- Embedding of `WithBasicAuth` (options.go): always assigns both fields. -/
def WithBasicAuth (username password : String) (o : Options) : Options :=
  { o with basicAuthUsername := username, basicAuthPassword := password }

/-- Embedding of `WithAuthScheme` (options.go): always assigns. -/
def WithAuthScheme (scheme : String) (o : Options) : Options :=
  { o with authScheme := scheme }

/-- Embedding of `WithAuthToken` (options.go): always assigns. -/
def WithAuthToken (token : String) (o : Options) : Options :=
  { o with authToken := token }

/-- Embedding of `WithTimeout` (options.go): values outside [1s, 5min] are
ignored. -/
def WithTimeout (timeout : Int) (o : Options) : Options :=
  if minTimeout ≤ timeout ∧ timeout ≤ maxTimeout then { o with timeout := timeout } else o

/-- Embedding of `WithUserAgent` (options.go): empty values are ignored. -/
def WithUserAgent (userAgent : String) (o : Options) : Options :=
  if userAgent ≠ "" then { o with userAgent := userAgent } else o

/-- Embedding of `WithMaxIdleConns` (options.go): values below 1 are ignored. -/
def WithMaxIdleConns (n : Int) (o : Options) : Options :=
  if 1 ≤ n then { o with maxIdleConns := n } else o

/-- Embedding of `WithMaxConnsPerHost` (options.go): values outside [1, 100]
are ignored. -/
def WithMaxConnsPerHost (n : Int) (o : Options) : Options :=
  if 1 ≤ n ∧ n ≤ maxMaxConnsPerHost then { o with maxConnsPerHost := n } else o

/-- Embedding of `WithIdleConnTimeout` (options.go): values outside
[1s, 5min] are ignored. -/
def WithIdleConnTimeout (timeout : Int) (o : Options) : Options :=
  if minIdleConnTimeout ≤ timeout ∧ timeout ≤ maxIdleConnTimeout then
    { o with idleConnTimeout := timeout }
  else o

/-- Embedding of `WithDisableKeepAlive` (options.go): always assigns. -/
def WithDisableKeepAlive (disable : Bool) (o : Options) : Options :=
  { o with disableKeepAlive := disable }

/-- Embedding of `WithMaxRedirects` (options.go): values outside [0, 20] are
ignored. -/
def WithMaxRedirects (n : Int) (o : Options) : Options :=
  if 0 ≤ n ∧ n ≤ maxMaxRedirects then { o with maxRedirects := n } else o

/-- Embedding of `WithTLSConfig` (options.go): nil configs are ignored. -/
def WithTLSConfig (config : Option TLSConfig) (o : Options) : Options :=
  if config.isSome then { o with tlsConfig := config } else o

/-- Embedding of `WithAlertsEndpoint` (options.go): trims; empty-after-trim
values are ignored. -/
def WithAlertsEndpoint (endpoint : String) (o : Options) : Options :=
  if trimSpace endpoint ≠ "" then { o with alertsEndpoint := trimSpace endpoint } else o

/-- Embedding of `WithPingEndpoint` (options.go): trims; empty-after-trim
values are ignored. -/
def WithPingEndpoint (endpoint : String) (o : Options) : Options :=
  if trimSpace endpoint ≠ "" then { o with pingEndpoint := trimSpace endpoint } else o

/-- One abstract code per distinct error message produced by
`Options.Validate` (options.go); the Go function returns distinct,
descriptive error values, embedded here as constructors. -/
inductive ValidationError where
  | retryCountNegative
  | retryCountTooLarge
  | retryWaitTimeTooSmall
  | retryWaitTimeTooLarge
  | retryMaxWaitTimeTooSmall
  | retryMaxWaitTimeTooLarge
  | retryMaxWaitLessThanRetryWait
  | requestLoggerNil
  | retryPolicyNil
  | bothAuthSet
  | timeoutTooSmall
  | timeoutTooLarge
  | userAgentEmpty
  | maxIdleConnsTooSmall
  | maxConnsPerHostTooSmall
  | maxConnsPerHostTooLarge
  | idleConnTimeoutTooSmall
  | idleConnTimeoutTooLarge
  | maxRedirectsNegative
  | maxRedirectsTooLarge
  | alertsEndpointEmpty
  | pingEndpointEmpty
deriving DecidableEq

/-- Embedding of `Options.Validate` (options.go, final revision): the
sequential if-chain of invariant checks, returning the first violation. -/
def Options.Validate (o : Options) : Option ValidationError :=
  if o.retryCount < 0 then some .retryCountNegative
  else if maxRetryCount < o.retryCount then some .retryCountTooLarge
  else if o.retryWaitTime < minRetryWaitTime then some .retryWaitTimeTooSmall
  else if maxRetryWaitTime < o.retryWaitTime then some .retryWaitTimeTooLarge
  else if o.retryMaxWaitTime < minRetryMaxWaitTime then some .retryMaxWaitTimeTooSmall
  else if maxRetryMaxWaitTime < o.retryMaxWaitTime then some .retryMaxWaitTimeTooLarge
  else if o.retryMaxWaitTime < o.retryWaitTime then some .retryMaxWaitLessThanRetryWait
  else if o.requestLogger.isNone then some .requestLoggerNil
  else if o.retryPolicy.isNone then some .retryPolicyNil
  else if o.basicAuthUsername ≠ "" ∧ o.authToken ≠ "" then some .bothAuthSet
  else if o.timeout < minTimeout then some .timeoutTooSmall
  else if maxTimeout < o.timeout then some .timeoutTooLarge
  else if o.userAgent = "" then some .userAgentEmpty
  else if o.maxIdleConns < 1 then some .maxIdleConnsTooSmall
  else if o.maxConnsPerHost < 1 then some .maxConnsPerHostTooSmall
  else if maxMaxConnsPerHost < o.maxConnsPerHost then some .maxConnsPerHostTooLarge
  else if o.idleConnTimeout < minIdleConnTimeout then some .idleConnTimeoutTooSmall
  else if maxIdleConnTimeout < o.idleConnTimeout then some .idleConnTimeoutTooLarge
  else if o.maxRedirects < 0 then some .maxRedirectsNegative
  else if maxMaxRedirects < o.maxRedirects then some .maxRedirectsTooLarge
  else if o.alertsEndpoint = "" then some .alertsEndpointEmpty
  else if o.pingEndpoint = "" then some .pingEndpointEmpty
  else none

/-- The ordered list of validation checks exactly as the specification
enumerates them, each paired with the error it produces. This is the
spec-side description of `Options.Validate`, to be compared with the
embedded if-chain. -/
def validationChecks (o : Options) : List (Bool × ValidationError) :=
  [ (decide (o.retryCount < 0), .retryCountNegative),
    (decide (maxRetryCount < o.retryCount), .retryCountTooLarge),
    (decide (o.retryWaitTime < minRetryWaitTime), .retryWaitTimeTooSmall),
    (decide (maxRetryWaitTime < o.retryWaitTime), .retryWaitTimeTooLarge),
    (decide (o.retryMaxWaitTime < minRetryMaxWaitTime), .retryMaxWaitTimeTooSmall),
    (decide (maxRetryMaxWaitTime < o.retryMaxWaitTime), .retryMaxWaitTimeTooLarge),
    (decide (o.retryMaxWaitTime < o.retryWaitTime), .retryMaxWaitLessThanRetryWait),
    (o.requestLogger.isNone, .requestLoggerNil),
    (o.retryPolicy.isNone, .retryPolicyNil),
    (decide (o.basicAuthUsername ≠ "" ∧ o.authToken ≠ ""), .bothAuthSet),
    (decide (o.timeout < minTimeout), .timeoutTooSmall),
    (decide (maxTimeout < o.timeout), .timeoutTooLarge),
    (decide (o.userAgent = ""), .userAgentEmpty),
    (decide (o.maxIdleConns < 1), .maxIdleConnsTooSmall),
    (decide (o.maxConnsPerHost < 1), .maxConnsPerHostTooSmall),
    (decide (maxMaxConnsPerHost < o.maxConnsPerHost), .maxConnsPerHostTooLarge),
    (decide (o.idleConnTimeout < minIdleConnTimeout), .idleConnTimeoutTooSmall),
    (decide (maxIdleConnTimeout < o.idleConnTimeout), .idleConnTimeoutTooLarge),
    (decide (o.maxRedirects < 0), .maxRedirectsNegative),
    (decide (maxMaxRedirects < o.maxRedirects), .maxRedirectsTooLarge),
    (decide (o.alertsEndpoint = ""), .alertsEndpointEmpty),
    (decide (o.pingEndpoint = ""), .pingEndpointEmpty) ]

/-- Spec-side validator: the error of the first violated check in the
specification's order, or none when every check passes. -/
def firstViolation (o : Options) : Option ValidationError :=
  ((validationChecks o).find? (fun c => c.1)).map (fun c => c.2)

/-- Conjunction of every invariant the specification requires of a valid
Options value, stated positively. -/
def allInvariantsHold (o : Options) : Prop :=
  0 ≤ o.retryCount ∧ o.retryCount ≤ maxRetryCount ∧
  minRetryWaitTime ≤ o.retryWaitTime ∧ o.retryWaitTime ≤ maxRetryWaitTime ∧
  minRetryMaxWaitTime ≤ o.retryMaxWaitTime ∧ o.retryMaxWaitTime ≤ maxRetryMaxWaitTime ∧
  o.retryWaitTime ≤ o.retryMaxWaitTime ∧
  o.requestLogger.isNone = false ∧
  o.retryPolicy.isNone = false ∧
  ¬(o.basicAuthUsername ≠ "" ∧ o.authToken ≠ "") ∧
  minTimeout ≤ o.timeout ∧ o.timeout ≤ maxTimeout ∧
  o.userAgent ≠ "" ∧
  1 ≤ o.maxIdleConns ∧
  1 ≤ o.maxConnsPerHost ∧ o.maxConnsPerHost ≤ maxMaxConnsPerHost ∧
  minIdleConnTimeout ≤ o.idleConnTimeout ∧ o.idleConnTimeout ≤ maxIdleConnTimeout ∧
  0 ≤ o.maxRedirects ∧ o.maxRedirects ≤ maxMaxRedirects ∧
  o.alertsEndpoint ≠ "" ∧ o.pingEndpoint ≠ ""

/-- An alert record (external collaborator): the specification treats it as
an opaque record with at least header and text fields. -/
structure Alert where
  header : String
  text : String

/-- Modelled from the spec: the Client record of section 3 — base URL,
Options, and the connected flag. The transport handle carries no observable
state beyond its construction from Options, so it is not represented. The
Client source file is absent from src (only its tests are present). -/
structure Client where
  baseURL : String
  options : Options
  connected : Bool

/-- Modelled from the spec: the constructor New(baseURL, mutators) — applies
defaults, then the mutators in order; does not validate, does not contact
the network; starts Uninitialized (connected = false). -/
def New (baseURL : String) (mutators : List (Options → Options)) : Client :=
  { baseURL := baseURL
    options := mutators.foldl (fun o m => m o) newClientOptions
    connected := false }

/-- Outcome of the single ping request a Connect attempt would issue:
either a transport failure or a response with a status code. -/
inductive PingOutcome where
  | transportFailure (e : GoError)
  | response (status : Int)

/-- The errors a Connect call can return. -/
inductive ConnectError where
  | emptyBaseURL
  | invalidOptions (e : ValidationError)
  | pingFailed (status : Option Int)

/-- Modelled from the spec (section 4.4 Connect, steps 1-7; the Connect
source is absent from src): fail on empty base URL; run Validate and wrap
a failure; no-op success when already Connected; otherwise issue one GET to
the ping endpoint and transition to Connected exactly on a 2xx response.
Returns the updated client, the error if any, and the number of network
requests issued by this call. -/
def Connect (c : Client) (ping : PingOutcome) : Client × Option ConnectError × Nat :=
  if c.baseURL = "" then (c, some .emptyBaseURL, 0)
  else
    match c.options.Validate with
    | some e => (c, some (.invalidOptions e), 0)
    | none =>
        if c.connected then (c, none, 0)
        else
          match ping with
          | .transportFailure _ => (c, some (.pingFailed none), 1)
          | .response s =>
              if 200 ≤ s ∧ s < 300 then ({ c with connected := true }, none, 1)
              else (c, some (.pingFailed (some s)), 1)

/-- Modelled from the spec: a response body, abstracting the external JSON
parser — text is the raw body, and errField is some s exactly when the body
parses as an object whose error field is the string s. -/
structure Body where
  text : String
  errField : Option String

/-- Modelled from the spec: the content type indicates structured data when
it names the JSON media type. -/
def contentTypeIndicatesJSON (ct : String) : Bool :=
  stringContains ct "application/json"

/-- The fixed sentinel for an empty error body (its exact text is pinned by
the tests in src). -/
def emptyBodySentinel : String := "(empty error body)"

/-- Modelled from the spec (section 4.3; the error-extraction source is
absent from src): empty body gives the sentinel; a structured body whose
error field is a non-empty string gives that string; otherwise the raw body
text. Total — never raises. -/
def extractErrorMessage (_statusCode : Int) (contentType : String) (body : Body) : String :=
  if body.text = "" then emptyBodySentinel
  else if contentTypeIndicatesJSON contentType then
    match body.errField with
    | some s => if s ≠ "" then s else body.text
    | none => body.text
  else body.text

/-- Outcome of the single POST request a Send attempt would issue. -/
inductive SendOutcome where
  | transportFailure (e : GoError)
  | response (status : Int) (contentType : String) (body : Body)

/-- The errors a Send call can return. -/
inductive SendError where
  | nilClient
  | notConnected
  | emptyAlerts
  | nilAlert (i : Nat)
  | requestFailed (method : String) (e : GoError)
  | httpError (status : Int) (msg : String)

/-- Index of the first nil alert in the argument list, if any. -/
def firstNilIdx : List (Option Alert) → Option Nat
  | [] => none
  | none :: _ => some 0
  | some _ :: rest => (firstNilIdx rest).map (fun i => i + 1)

/-- Modelled from the spec (section 4.4 Send, steps 1-8; the Send source is
absent from src): precondition checks in order — nil client, not connected,
empty alert list, first nil alert by index — each returned before any
request; then one POST whose non-2xx response is converted through
extractErrorMessage together with the status code. Returns the error if any
and the number of network requests issued. -/
def Send (c : Option Client) (alerts : List (Option Alert)) (outcome : SendOutcome) :
    Option SendError × Nat :=
  match c with
  | none => (some .nilClient, 0)
  | some cl =>
      if cl.connected = false then (some .notConnected, 0)
      else if alerts.isEmpty then (some .emptyAlerts, 0)
      else
        match firstNilIdx alerts with
        | some i => (some (.nilAlert i), 0)
        | none =>
            match outcome with
            | .transportFailure e => (some (.requestFailed "POST" e), 1)
            | .response s ct body =>
                if 200 ≤ s ∧ s < 300 then (none, 1)
                else (some (.httpError s (extractErrorMessage s ct body)), 1)

/-- C10: the default Options value produced by newClientOptions satisfies
every invariant checked by Validate — Validate applied to a freshly
constructed, unmutated Options returns no error. -/
theorem default_options_validate_none : newClientOptions.Validate = none := by
  rfl

/-- C2: DefaultRetryPolicy returns, on a transport error, false exactly for
cancellation, deadline-exceeded, or a DNS-resolution failure (message
containing "no such host") and true for any other transport error; with no
error, true exactly when the response status is 429 or at least 500. -/
theorem defaultRetryPolicy_spec :
    (∀ (r : RestyResponse) (e : GoError),
        DefaultRetryPolicy r (some e) = false ↔
          (e.isCanceled = true ∨ e.isDeadlineExceeded = true ∨
            stringContains e.errMessage "no such host" = true)) ∧
    (∀ r : RestyResponse,
        DefaultRetryPolicy r none = true ↔ (r.statusCode = 429 ∨ 500 ≤ r.statusCode)) := by
  constructor
  · intro r e
    cases hc : e.isCanceled <;> cases hd : e.isDeadlineExceeded <;>
      cases hn : stringContains e.errMessage "no such host" <;>
        simp [DefaultRetryPolicy, hc, hd, hn]
  · intro r
    simp [DefaultRetryPolicy]

/-- Witness for C2 at a concrete cancelled error. -/
theorem defaultRetryPolicy_spec_witness :
    DefaultRetryPolicy ⟨500⟩ (some ⟨true, false, "context canceled"⟩) = false :=
  (defaultRetryPolicy_spec.1 ⟨500⟩ ⟨true, false, "context canceled"⟩).mpr (Or.inl rfl)

/-- C1 (code evaluated at the failing inputs): the retry-wait, retry-max-wait
and retry-count mutators accept values strictly above their documented
maxima (1 minute, 5 minutes and 100 respectively), overwriting the stored
value instead of retaining it as the claim and the mutators' own
documentation state. -/
theorem retry_mutators_accept_values_above_documented_max :
    (WithRetryWaitTime (2 * timeMinute) newClientOptions).retryWaitTime = 2 * timeMinute ∧
    maxRetryWaitTime < 2 * timeMinute ∧
    newClientOptions.retryWaitTime = 500 * timeMillisecond ∧
    (WithRetryMaxWaitTime (6 * timeMinute) newClientOptions).retryMaxWaitTime = 6 * timeMinute ∧
    maxRetryMaxWaitTime < 6 * timeMinute ∧
    (WithRetryCount 101 newClientOptions).retryCount = 101 ∧
    maxRetryCount < 101 := by
  refine ⟨rfl, by decide, rfl, rfl, by decide, rfl, by decide⟩

/-- Unfolding step for the spec-side violation search: searching a cons cell
is an if on its Boolean check. -/
theorem findViolation_cons (b : Bool) (e : ValidationError)
    (rest : List (Bool × ValidationError)) :
    ((((b, e) :: rest).find? (fun c => c.1)).map (fun c => c.2)) =
      if b then some e else ((rest.find? (fun c => c.1)).map (fun c => c.2)) := by
  cases b <;> simp [List.find?]

set_option maxHeartbeats 1600000 in
/-- C3: for every Options value, Validate returns the error of the first
violated check in exactly the specification's order (it coincides with the
spec-side firstViolation search over the ordered check list), and returns
no error exactly when every invariant holds. -/
theorem validate_first_violation (o : Options) :
    o.Validate = firstViolation o ∧ (o.Validate = none ↔ allInvariantsHold o) := by
  have h1 : o.Validate = firstViolation o := by
    unfold Options.Validate firstViolation validationChecks
    simp only [findViolation_cons, decide_eq_true_eq, List.find?_nil, Option.map_none']
  refine ⟨h1, ?_⟩
  rw [h1]
  unfold firstViolation
  rw [Option.map_eq_none', List.find?_eq_none]
  unfold validationChecks allInvariantsHold
  simp only [List.mem_cons, List.not_mem_nil, or_false, forall_eq_or_imp, forall_eq,
    Bool.not_eq_true, decide_eq_false_iff_not, not_lt]

/-- Witness for C3 at the default options. -/
theorem validate_first_violation_witness :
    newClientOptions.Validate = firstViolation newClientOptions :=
  (validate_first_violation newClientOptions).1

/-- An Options value with both auth modes set but an invalid retry count,
used to refute the unrestricted both-auth iff. -/
def bothAuthBadRetryOptions : Options :=
  { newClientOptions with retryCount := -1, basicAuthUsername := "user", authToken := "token" }

/-- C4 counterexample: an Options value with a non-empty basic-auth username
and a non-empty auth token for which Validate does not return the
mutually-exclusive-auth error (the earlier retryCount check fires first),
refuting the claim's unrestricted iff. -/
theorem validate_both_auth_counterexample :
    bothAuthBadRetryOptions.basicAuthUsername ≠ "" ∧
    bothAuthBadRetryOptions.authToken ≠ "" ∧
    bothAuthBadRetryOptions.Validate = some .retryCountNegative ∧
    bothAuthBadRetryOptions.Validate ≠ some .bothAuthSet := by
  refine ⟨by decide, by decide, rfl, by decide⟩

/-- An if-expression avoids a value that both branches avoid. -/
theorem ite_ne_of (c : Prop) [Decidable c] (a b : Option ValidationError)
    (e : ValidationError) (ha : a ≠ some e) (hb : b ≠ some e) :
    (if c then a else b) ≠ some e := by
  split
  · exact ha
  · exact hb

/-- C4 (amended): for every Options value passing all validation checks that
precede the auth check (retry bounds and ordering, logger and retry policy
non-nil), Validate returns the mutually-exclusive-auth error exactly when
both a non-empty basic-auth username and a non-empty auth token are set;
and the basic-auth and token mutators commute, so this is independent of
the order in which the two auth fields were assigned. -/
theorem validate_both_auth_iff (o : Options)
    (h1 : 0 ≤ o.retryCount) (h2 : o.retryCount ≤ maxRetryCount)
    (h3 : minRetryWaitTime ≤ o.retryWaitTime) (h4 : o.retryWaitTime ≤ maxRetryWaitTime)
    (h5 : minRetryMaxWaitTime ≤ o.retryMaxWaitTime)
    (h6 : o.retryMaxWaitTime ≤ maxRetryMaxWaitTime)
    (h7 : o.retryWaitTime ≤ o.retryMaxWaitTime)
    (h8 : o.requestLogger.isNone = false) (h9 : o.retryPolicy.isNone = false) :
    (o.Validate = some .bothAuthSet ↔ (o.basicAuthUsername ≠ "" ∧ o.authToken ≠ "")) ∧
    (∀ (u p t : String) (o2 : Options),
        WithAuthToken t (WithBasicAuth u p o2) = WithBasicAuth u p (WithAuthToken t o2)) := by
  constructor
  · unfold Options.Validate
    rw [if_neg (by omega), if_neg (by omega), if_neg (by omega), if_neg (by omega),
        if_neg (by omega), if_neg (by omega), if_neg (by omega),
        if_neg (by simp [h8]), if_neg (by simp [h9])]
    by_cases hb : o.basicAuthUsername ≠ "" ∧ o.authToken ≠ ""
    · rw [if_pos hb, eq_true hb, iff_true]
    · rw [if_neg hb, eq_false hb, iff_false]
      repeat' refine ite_ne_of _ _ _ _ (by decide) ?_
      decide
  · intro u p t o2
    rfl

/-- Witness for C4 at concrete options with both auth modes set. -/
theorem validate_both_auth_iff_witness :
    (WithAuthToken "token" (WithBasicAuth "user" "pass" newClientOptions)).Validate
      = some .bothAuthSet :=
  ((validate_both_auth_iff (WithAuthToken "token" (WithBasicAuth "user" "pass" newClientOptions))
      (by decide) (by decide) (by decide) (by decide) (by decide) (by decide) (by decide)
      rfl rfl).1).mpr ⟨by decide, by decide⟩

/-- Case folding is reflexive: a string always fold-equals itself. -/
theorem eqFold_refl (s : String) : eqFold s s = true := by
  simp [eqFold]

/-- Go map assignment at one key does not disturb lookups of another key. -/
theorem mapGet_mapInsert_ne (m : List (String × String)) (k k2 v : String) (h : k ≠ k2) :
    mapGet (mapInsert m k v) k2 = mapGet m k2 := by
  induction m with
  | nil => simp [mapInsert, mapGet, h]
  | cons hd tl ih =>
      obtain ⟨k0, v0⟩ := hd
      by_cases hk : k0 = k
      · subst hk
        simp [mapInsert, mapGet, h]
      · simp [mapInsert, mapGet, hk, ih]

/-- C8: a header mutator call whose trimmed name is empty or case-
insensitively equal to Content-Type or Accept leaves the Options (hence the
stored header map) unchanged; and no header mutator call, accepted or not,
ever alters the stored values of the two protected headers. -/
theorem withRequestHeader_protected (o : Options) (name value : String) :
    ((trimSpace name = "" ∨ eqFold (trimSpace name) "Content-Type" = true ∨
        eqFold (trimSpace name) "Accept" = true) →
      WithRequestHeader name value o = o) ∧
    mapGet (WithRequestHeader name value o).requestHeaders "Content-Type"
      = mapGet o.requestHeaders "Content-Type" ∧
    mapGet (WithRequestHeader name value o).requestHeaders "Accept"
      = mapGet o.requestHeaders "Accept" := by
  unfold WithRequestHeader
  by_cases hrej : trimSpace name = "" ∨ eqFold (trimSpace name) "Content-Type" = true ∨
      eqFold (trimSpace name) "Accept" = true
  · rw [if_pos hrej]
    exact ⟨fun _ => rfl, rfl, rfl⟩
  · rw [if_neg hrej]
    push_neg at hrej
    obtain ⟨hne, hct, hac⟩ := hrej
    refine ⟨fun hc => ?_, ?_, ?_⟩
    · rcases hc with hc | hc | hc
      · exact absurd hc hne
      · exact absurd hc hct
      · exact absurd hc hac
    · exact mapGet_mapInsert_ne _ _ _ _ (fun he => hct (he ▸ eqFold_refl _))
    · exact mapGet_mapInsert_ne _ _ _ _ (fun he => hac (he ▸ eqFold_refl _))

/-- Witness for C8: a case-variant of a protected header name is rejected. -/
theorem withRequestHeader_protected_witness :
    WithRequestHeader "content-type" "text/plain" newClientOptions = newClientOptions :=
  (withRequestHeader_protected newClientOptions "content-type" "text/plain").1
    (Or.inr (Or.inl (by decide)))

/-- C9: every mutator modifies at most its own target field or fields — the
result always equals the input Options with only the target fields
replaced — and whenever a mutator's input is rejected (out of range, empty
after trim, or nil) the entire Options value is unchanged. -/
theorem mutators_frame_property (o : Options) (count wt mwt tmo n1 n2 ict n3 : Int)
    (lg : Option RequestLogger) (pol : Option RetryPolicyFn) (tc : Option TLSConfig)
    (hn hv u p sch tok ua aep pep : String) (ka : Bool) :
    (WithRetryCount count o = { o with retryCount := (WithRetryCount count o).retryCount }) ∧
    (count < 0 → WithRetryCount count o = o) ∧
    (WithRetryWaitTime wt o
      = { o with retryWaitTime := (WithRetryWaitTime wt o).retryWaitTime }) ∧
    (wt < 100 * timeMillisecond → WithRetryWaitTime wt o = o) ∧
    (WithRetryMaxWaitTime mwt o
      = { o with retryMaxWaitTime := (WithRetryMaxWaitTime mwt o).retryMaxWaitTime }) ∧
    (mwt < 100 * timeMillisecond → WithRetryMaxWaitTime mwt o = o) ∧
    (WithRequestLogger lg o
      = { o with requestLogger := (WithRequestLogger lg o).requestLogger }) ∧
    (lg = none → WithRequestLogger lg o = o) ∧
    (WithRetryPolicy pol o = { o with retryPolicy := (WithRetryPolicy pol o).retryPolicy }) ∧
    (pol = none → WithRetryPolicy pol o = o) ∧
    (WithRequestHeader hn hv o
      = { o with requestHeaders := (WithRequestHeader hn hv o).requestHeaders }) ∧
    ((trimSpace hn = "" ∨ eqFold (trimSpace hn) "Content-Type" = true ∨
        eqFold (trimSpace hn) "Accept" = true) → WithRequestHeader hn hv o = o) ∧
    (WithBasicAuth u p o
      = { o with basicAuthUsername := (WithBasicAuth u p o).basicAuthUsername,
                 basicAuthPassword := (WithBasicAuth u p o).basicAuthPassword }) ∧
    (WithAuthScheme sch o = { o with authScheme := (WithAuthScheme sch o).authScheme }) ∧
    (WithAuthToken tok o = { o with authToken := (WithAuthToken tok o).authToken }) ∧
    (WithTimeout tmo o = { o with timeout := (WithTimeout tmo o).timeout }) ∧
    (¬(minTimeout ≤ tmo ∧ tmo ≤ maxTimeout) → WithTimeout tmo o = o) ∧
    (WithUserAgent ua o = { o with userAgent := (WithUserAgent ua o).userAgent }) ∧
    (ua = "" → WithUserAgent ua o = o) ∧
    (WithMaxIdleConns n1 o = { o with maxIdleConns := (WithMaxIdleConns n1 o).maxIdleConns }) ∧
    (n1 < 1 → WithMaxIdleConns n1 o = o) ∧
    (WithMaxConnsPerHost n2 o
      = { o with maxConnsPerHost := (WithMaxConnsPerHost n2 o).maxConnsPerHost }) ∧
    (¬(1 ≤ n2 ∧ n2 ≤ maxMaxConnsPerHost) → WithMaxConnsPerHost n2 o = o) ∧
    (WithIdleConnTimeout ict o
      = { o with idleConnTimeout := (WithIdleConnTimeout ict o).idleConnTimeout }) ∧
    (¬(minIdleConnTimeout ≤ ict ∧ ict ≤ maxIdleConnTimeout) → WithIdleConnTimeout ict o = o) ∧
    (WithDisableKeepAlive ka o
      = { o with disableKeepAlive := (WithDisableKeepAlive ka o).disableKeepAlive }) ∧
    (WithMaxRedirects n3 o = { o with maxRedirects := (WithMaxRedirects n3 o).maxRedirects }) ∧
    (¬(0 ≤ n3 ∧ n3 ≤ maxMaxRedirects) → WithMaxRedirects n3 o = o) ∧
    (WithTLSConfig tc o = { o with tlsConfig := (WithTLSConfig tc o).tlsConfig }) ∧
    (tc = none → WithTLSConfig tc o = o) ∧
    (WithAlertsEndpoint aep o
      = { o with alertsEndpoint := (WithAlertsEndpoint aep o).alertsEndpoint }) ∧
    (trimSpace aep = "" → WithAlertsEndpoint aep o = o) ∧
    (WithPingEndpoint pep o
      = { o with pingEndpoint := (WithPingEndpoint pep o).pingEndpoint }) ∧
    (trimSpace pep = "" → WithPingEndpoint pep o = o) :=
  ⟨by unfold WithRetryCount; split <;> rfl,
   fun h => by unfold WithRetryCount; rw [if_neg (not_le.mpr h)],
   by unfold WithRetryWaitTime; split <;> rfl,
   fun h => by unfold WithRetryWaitTime; rw [if_neg (not_le.mpr h)],
   by unfold WithRetryMaxWaitTime; split <;> rfl,
   fun h => by unfold WithRetryMaxWaitTime; rw [if_neg (not_le.mpr h)],
   by unfold WithRequestLogger; split <;> rfl,
   fun h => by unfold WithRequestLogger; rw [if_neg (by simp [h])],
   by unfold WithRetryPolicy; split <;> rfl,
   fun h => by unfold WithRetryPolicy; rw [if_neg (by simp [h])],
   by unfold WithRequestHeader; split <;> rfl,
   fun h => by unfold WithRequestHeader; rw [if_pos h],
   rfl, rfl, rfl,
   by unfold WithTimeout; split <;> rfl,
   fun h => by unfold WithTimeout; rw [if_neg h],
   by unfold WithUserAgent; split <;> rfl,
   fun h => by unfold WithUserAgent; rw [if_neg (not_not_intro h)],
   by unfold WithMaxIdleConns; split <;> rfl,
   fun h => by unfold WithMaxIdleConns; rw [if_neg (not_le.mpr h)],
   by unfold WithMaxConnsPerHost; split <;> rfl,
   fun h => by unfold WithMaxConnsPerHost; rw [if_neg h],
   by unfold WithIdleConnTimeout; split <;> rfl,
   fun h => by unfold WithIdleConnTimeout; rw [if_neg h],
   rfl,
   by unfold WithMaxRedirects; split <;> rfl,
   fun h => by unfold WithMaxRedirects; rw [if_neg h],
   by unfold WithTLSConfig; split <;> rfl,
   fun h => by unfold WithTLSConfig; rw [if_neg (by simp [h])],
   by unfold WithAlertsEndpoint; split <;> rfl,
   fun h => by unfold WithAlertsEndpoint; rw [if_neg (not_not_intro h)],
   by unfold WithPingEndpoint; split <;> rfl,
   fun h => by unfold WithPingEndpoint; rw [if_neg (not_not_intro h)]⟩

/-- Witness for C9: a rejected retry count leaves the default Options
entirely unchanged. -/
theorem mutators_frame_property_witness :
    WithRetryCount (-1) newClientOptions = newClientOptions :=
  (mutators_frame_property newClientOptions (-1) 0 0 0 0 0 0 0 none none none
      "" "" "" "" "" "" "" "" "" false).2.1 (by decide)

/-- C5: after a successful Connect the client is Connected, a subsequent
Connect returns the same client with success and issues no network request,
and when the client started out unconnected the two calls issue exactly one
ping in total. -/
theorem connect_idempotent (c : Client) (p p2 : PingOutcome)
    (h : (Connect c p).2.1 = none) :
    (Connect c p).1.connected = true ∧
    Connect (Connect c p).1 p2 = ((Connect c p).1, none, 0) ∧
    (c.connected = false → (Connect c p).2.2 + (Connect (Connect c p).1 p2).2.2 = 1) := by
  by_cases hb : c.baseURL = ""
  · simp [Connect, hb] at h
  · cases hv : c.options.Validate with
    | some e => simp [Connect, hb, hv] at h
    | none =>
        by_cases hc : c.connected
        · simp [Connect, hb, hv, hc]
        · cases p with
          | transportFailure e => simp [Connect, hb, hv, hc] at h
          | response s =>
              by_cases hs : 200 ≤ s ∧ s < 300
              · simp [Connect, hb, hv, hc, hs]
              · simp [Connect, hb, hv, hc, hs] at h

/-- Witness for C5 at a fresh client against a healthy endpoint. -/
theorem connect_idempotent_witness :
    Connect (Connect (New "http://example.com" []) (.response 200)).1 (.response 200)
      = ((Connect (New "http://example.com" []) (.response 200)).1, none, 0) :=
  (connect_idempotent (New "http://example.com" []) (.response 200) (.response 200) rfl).2.1

/-- The index reported by firstNilIdx is a nil entry, and every smaller
index holds a non-nil entry. -/
theorem firstNilIdx_least (l : List (Option Alert)) (i : Nat)
    (h : firstNilIdx l = some i) :
    l[i]? = some none ∧ ∀ j, j < i → l[j]? ≠ some none := by
  induction l generalizing i with
  | nil => simp [firstNilIdx] at h
  | cons hd tl ih =>
      cases hd with
      | none =>
          simp [firstNilIdx] at h
          subst h
          exact ⟨by simp, fun j hj => absurd hj (Nat.not_lt_zero j)⟩
      | some a =>
          simp [firstNilIdx] at h
          obtain ⟨i0, h0, rfl⟩ := h
          have hspec := ih i0 h0
          refine ⟨by simpa using hspec.1, fun j hj => ?_⟩
          cases j with
          | zero => simp
          | succ j2 =>
              simpa using hspec.2 j2 (by omega)

/-- C6: Send checks its preconditions before any network request and in
order — nil client, then not-connected, then empty alert list, then the
first nil alert by its least index — each failure returned with zero
requests issued. -/
theorem send_precondition_order (cl : Client) (alerts : List (Option Alert))
    (outcome : SendOutcome) (i : Nat) :
    (Send none alerts outcome = (some .nilClient, 0)) ∧
    (cl.connected = false → Send (some cl) alerts outcome = (some .notConnected, 0)) ∧
    (cl.connected = true → Send (some cl) [] outcome = (some .emptyAlerts, 0)) ∧
    (cl.connected = true → firstNilIdx alerts = some i →
       Send (some cl) alerts outcome = (some (.nilAlert i), 0) ∧
       alerts[i]? = some none ∧
       ∀ j, j < i → alerts[j]? ≠ some none) := by
  refine ⟨rfl, fun hconn => by simp [Send, hconn], fun hconn => by simp [Send, hconn], ?_⟩
  intro hconn hnil
  have hspec := firstNilIdx_least alerts i hnil
  cases alerts with
  | nil => simp [firstNilIdx] at hnil
  | cons hd tl =>
      exact ⟨by simp [Send, hconn, hnil], hspec.1, hspec.2⟩

/-- Witness for C6 with a nil alert at index 1. -/
theorem send_precondition_order_witness :
    Send (some { baseURL := "http://example.com", options := newClientOptions,
                 connected := true })
        [some { header := "h", text := "t" }, none, some { header := "h2", text := "t2" }]
        (.response 200 "application/json" { text := "", errField := none })
      = (some (.nilAlert 1), 0) :=
  ((send_precondition_order
      { baseURL := "http://example.com", options := newClientOptions, connected := true }
      [some { header := "h", text := "t" }, none, some { header := "h2", text := "t2" }]
      (.response 200 "application/json" { text := "", errField := none }) 1).2.2.2
    rfl rfl).1

/-- C7: the error-extraction function returns the fixed sentinel on an empty
body, the non-empty error field of a structured body, and the raw body text
otherwise; it is total, and a non-2xx Send response surfaces its output
embedded with the numeric status code. -/
theorem extract_error_message_spec (s : Int) (ct : String) (b : Body) :
    (b.text = "" → extractErrorMessage s ct b = emptyBodySentinel) ∧
    (b.text ≠ "" → contentTypeIndicatesJSON ct = true →
       ∀ msg, b.errField = some msg → msg ≠ "" → extractErrorMessage s ct b = msg) ∧
    (b.text ≠ "" →
       (contentTypeIndicatesJSON ct = false ∨ b.errField = none ∨ b.errField = some "") →
       extractErrorMessage s ct b = b.text) ∧
    (∀ (cl : Client) (alerts : List (Option Alert)),
       cl.connected = true → firstNilIdx alerts = none → alerts ≠ [] →
       ¬(200 ≤ s ∧ s < 300) →
       Send (some cl) alerts (.response s ct b)
         = (some (.httpError s (extractErrorMessage s ct b)), 1)) := by
  refine ⟨fun he => by simp [extractErrorMessage, he], ?_, ?_, ?_⟩
  · intro hne hjson msg hmsg hmsgne
    simp [extractErrorMessage, hne, hjson, hmsg, hmsgne]
  · intro hne hcase
    rcases hcase with hcase | hcase | hcase <;>
      simp [extractErrorMessage, hne, hcase]
  · intro cl alerts hconn hnil hempty hstatus
    cases alerts with
    | nil => exact absurd rfl hempty
    | cons hd tl => simp [Send, hconn, hnil, hstatus]

/-- Witness for C7: a 400 response with a structured error body surfaces the
extracted message with the status code. -/
theorem extract_error_message_spec_witness :
    Send (some { baseURL := "http://example.com", options := newClientOptions,
                 connected := true })
        [some { header := "h", text := "t" }]
        (.response 400 "application/json"
          { text := "\x7b\x7d", errField := some "validation failed: header is required" })
      = (some (.httpError 400 "validation failed: header is required"), 1) := by
  have h := (extract_error_message_spec 400 "application/json"
      { text := "\x7b\x7d", errField := some "validation failed: header is required" }).2.2.2
      { baseURL := "http://example.com", options := newClientOptions, connected := true }
      [some { header := "h", text := "t" }] rfl rfl (List.cons_ne_nil _ _) (by decide)
  rw [h]
  rfl

end SlackClient
